import Mathlib

/-!
Verification of the Nexa unified service against its specification.

Shallow embedding of the code in `services/services.py` (the deduplicating
capture pipeline and the extractor dispatch) and of
`services/nexy_rep/storage.py` (the conversation log reader).

Modelling conventions:
- External collaborators (screenshot capture, OCR, embedding, similarity,
  the durable insert) are parameters bundled in `Collaborators`. A Python
  call that may raise is modelled as an `Option`-returning function
  (`none` means the call raised or the lazy import failed), matching the
  broad try/except blocks in the source.
- File-system and database side effects are recorded as an explicit trace
  (`List FsEvent`) in the order the source performs them.
- The wall clock is abstracted: the formatted timestamp string that the
  source derives from `datetime.now()` is a parameter `timestamp_str`.
- Python floats become rationals; the strict comparison
  `similarity < threshold` is preserved exactly.
- `os.remove` on a file just written by the pipeline is modelled as
  succeeding (the source wraps one such call in try/except pass as a
  best-effort guard, but the file exists on that path).
-/

namespace Nexa

/-- Embedding vector produced by the embedding collaborator
(`nexy_rep.embed.get_embedding`). The pipeline never inspects it, only
stores and compares it, so a list of rationals is a faithful stand-in. -/
abbrev Emb := List ℚ

/-- The configuration fields of `nexy_rep.config.Config` consumed by the
pipeline: `temp_dir`, `images_dir`, `db_path`, `similarity_threshold`. -/
structure Config where
  temp_dir : String
  images_dir : String
  db_path : String
  similarity_threshold : ℚ
deriving DecidableEq

/-- External collaborators of `UnifiedService`, one field per lazily
imported callable. `take_screenshot` returns whether the call succeeded;
`extract_text_from_image` and `get_embedding` return `none` when the call
(or its import) raises; `store_data_ok` records whether the
`nexy_rep.storage.store_data` insert succeeds (the source catches and
logs its failure). -/
structure Collaborators where
  take_screenshot : String → Bool
  extract_text_from_image : String → Option String
  get_embedding : String → Option Emb
  compute_similarity : Emb → Emb → ℚ
  store_data_ok : Bool

/-- Result dictionary of one pipeline invocation
(`timestamp` is abstracted away, see the module comment). -/
structure CaptureResult where
  image_path : Option String
  text : String
  similarity : ℚ
  error : Option String
deriving DecidableEq

/-- One observable side effect of a pipeline invocation, in source order:
`takeScreenshot` writes the temp file, `removeFile` is `os.remove`,
`renameFile` is `os.rename`, `copyFile` is `shutil.copy2`, and
`storeData` is the durable insert into `captured_data`. -/
inductive FsEvent
  | takeScreenshot (path : String)
  | removeFile (path : String)
  | renameFile (src dst : String)
  | copyFile (src dst : String)
  | storeData (dbPath : String) (imagePath : String) (extractedText : String)
deriving DecidableEq

/-- Python whitespace characters recognised by `str.strip()` on ASCII
text: space, tab, newline, carriage return, vertical tab, form feed. -/
def isPySpace (ch : Char) : Bool :=
  ch = ' ' || ch = '\t' || ch = '\n' || ch = '\r' ||
    ch = Char.ofNat 11 || ch = Char.ofNat 12

/-- Truth of the Python test `not text.strip()`: every character of the
string is whitespace (in particular the empty string is blank). -/
def isBlank (s : String) : Bool := s.data.all isPySpace

/-- Temp-file path built at the top of `capture_and_process_screen`:
`os.path.join(self.config.temp_dir, f"temp_{timestamp_str}.png")`. -/
def tempPath (cfg : Config) (timestamp_str : String) : String :=
  cfg.temp_dir ++ "/temp_" ++ timestamp_str ++ ".png"

/-- Permanent image path built in the acceptance branch:
`os.path.join(self.config.images_dir, f"image_{timestamp_str}.png")`. -/
def permPath (cfg : Config) (timestamp_str : String) : String :=
  cfg.images_dir ++ "/image_" ++ timestamp_str ++ ".png"

/-- Value of `result["similarity"]` after the embedding block of either
entry point: the computed similarity when `get_embedding` succeeds and a
last embedding exists, and `0` otherwise (the source initialises the
field to `0.0` and only assigns it inside the try block when
`self._last_embedding is not None`). -/
def simOf (c : Collaborators) (last : Option Emb) (text : String) : ℚ :=
  match c.get_embedding text, last with
  | some e, some le => c.compute_similarity e le
  | _, _ => 0

/-- Shallow embedding of `UnifiedService.capture_and_process_screen`.
State threading: `last` is `self._last_embedding` on entry, the middle
component of the result is its value on return. The third component is
the trace of side effects in source order. -/
def capture_and_process_screen (cfg : Config) (c : Collaborators)
    (last : Option Emb) (timestamp_str : String) (store : Bool) :
    CaptureResult × Option Emb × List FsEvent :=
  let temp := tempPath cfg timestamp_str
  if c.take_screenshot temp = true then
    match c.extract_text_from_image temp with
    | none =>
        (⟨none, "", 0, some "ocr_unavailable"⟩, last,
          [FsEvent.takeScreenshot temp, FsEvent.removeFile temp])
    | some text =>
        if isBlank text = true then
          (⟨none, text, 0, none⟩, last,
            [FsEvent.takeScreenshot temp, FsEvent.removeFile temp])
        else
          let embedding := c.get_embedding text
          let similarity := simOf c last text
          if store = true ∧ (last = none ∨ similarity < cfg.similarity_threshold) then
            let perm := permPath cfg timestamp_str
            (⟨some perm, text, similarity, none⟩, embedding,
              [FsEvent.takeScreenshot temp, FsEvent.renameFile temp perm] ++
                (if c.store_data_ok = true
                  then [FsEvent.storeData cfg.db_path perm text] else []))
          else
            (⟨none, text, similarity, none⟩, last,
              [FsEvent.takeScreenshot temp, FsEvent.removeFile temp])
  else
    (⟨none, "", 0, some "capture_unavailable"⟩, last, [])

/-- Shallow embedding of `UnifiedService.process_image`. Same threading
as `capture_and_process_screen`; the caller-supplied image is copied
(never moved) on acceptance and is never deleted. -/
def process_image (cfg : Config) (c : Collaborators) (last : Option Emb)
    (image_path : String) (timestamp_str : String) (store : Bool) :
    CaptureResult × Option Emb × List FsEvent :=
  match c.extract_text_from_image image_path with
  | none => (⟨none, "", 0, some "ocr_unavailable"⟩, last, [])
  | some text =>
      if isBlank text = true then
        (⟨none, text, 0, none⟩, last, [])
      else
        let embedding := c.get_embedding text
        let similarity := simOf c last text
        if store = true ∧ (last = none ∨ similarity < cfg.similarity_threshold) then
          let perm := permPath cfg timestamp_str
          (⟨some perm, text, similarity, none⟩, embedding,
            [FsEvent.copyFile image_path perm] ++
              (if c.store_data_ok = true
                then [FsEvent.storeData cfg.db_path perm text] else []))
        else
          (⟨none, text, similarity, none⟩, last, [])

/-- Whether an event is the durable insert into the capture log. -/
def isStoreData : FsEvent → Bool
  | FsEvent.storeData _ _ _ => true
  | _ => false

/-- Whether a trace contains a durable capture-log insert. -/
def recordAppended (evs : List FsEvent) : Bool := evs.any isStoreData

/-- Whether an event places a file at path `p` in the permanent store
(a rename from the capture path or a copy from an existing image). -/
def placesFile (ev : FsEvent) (p : String) : Bool :=
  match ev with
  | FsEvent.renameFile _ dst => dst == p
  | FsEvent.copyFile _ dst => dst == p
  | _ => false

/-- Whether a trace places any file in the permanent store. -/
def filePlaced (evs : List FsEvent) : Bool :=
  evs.any fun ev =>
    match ev with
    | FsEvent.renameFile _ _ => true
    | FsEvent.copyFile _ _ => true
    | _ => false

/-- Auxiliary scan for `fileBeforeLog`: `seen` holds the events already
performed, and every durable insert must reference a path some earlier
event placed. -/
def fileBeforeLogAux (seen : List FsEvent) : List FsEvent → Bool
  | [] => true
  | ev :: rest =>
      (match ev with
        | FsEvent.storeData _ p _ => seen.any fun x => placesFile x p
        | _ => true) && fileBeforeLogAux (ev :: seen) rest

/-- A trace is well ordered when every capture-log insert is preceded by
the placement of the file it references. -/
def fileBeforeLog (evs : List FsEvent) : Bool := fileBeforeLogAux [] evs

/-- Rightmost index of character `c` in a character list, `-1` when the
character does not occur: Python `str.rfind`. -/
def rfind (c : Char) : List Char → Int
  | [] => -1
  | x :: xs =>
      let r := rfind c xs
      if r ≥ 0 then r + 1 else if x = c then 0 else -1

/-- Extension component of `os.path.splitext` (posix rules): the suffix
from the last dot, provided that dot lies after the last separator and
some character strictly between the separator and that dot is not itself
a dot (so dotfiles such as `.bashrc` have no extension). -/
def splitext_ext (p : String) : String :=
  let l := p.data
  let sep := rfind '/' l
  let dot := rfind '.' l
  if decide (sep < dot) &&
      ((l.take dot.toNat).drop (sep + 1).toNat).any (fun ch => ch != '.') then
    String.mk (l.drop dot.toNat)
  else
    ""

/-- Python `str.lower` restricted to ASCII, which covers every extension
key of the registry. -/
def pyLower (s : String) : String := String.mk (s.data.map Char.toLower)

/-- The extension-to-extractor registry built in `UnifiedService.__init__`
(`self.extractors`), values named by the extractor class dispatched to. -/
def extractors : List (String × String) :=
  [(".pdf", "PDFExtractor"), (".docx", "DocxExtractor"),
    (".csv", "CSVExtractor"), (".txt", "TXTExtractor"),
    (".json", "JSONExtractor"), (".yaml", "YAMLExtractor"),
    (".yml", "YAMLExtractor"), (".toml", "TOMLExtractor"),
    (".md", "MarkdownExtractor")]

/-- Shallow embedding of `UnifiedService.extract_from_file`. The
per-format parsing collaborator is the parameter `extract_text`, applied
to the dispatched extractor name and the file path; an unknown lower-cased
extension is the `ValueError` carrying that extension, modelled as
`Except.error` of the message the source formats. -/
def extract_from_file (extract_text : String → String → String)
    (file_path : String) : Except String String :=
  let file_ext := pyLower (splitext_ext file_path)
  match extractors.lookup file_ext with
  | none => Except.error ("Unsupported file type: " ++ file_ext)
  | some cls => Except.ok (extract_text cls file_path)

/-- Supported extension set as the specification enumerates it. Written
from the words of the spec so that the dispatch theorem relates it to the
registry the code builds. -/
def supportedExts : List String :=
  [".pdf", ".docx", ".csv", ".txt", ".json", ".yaml", ".yml", ".toml", ".md"]

/-- One row of the `conversations` table: `session_id`, `timestamp`,
`role`, `message` (the auto-assigned id is the position in the list). -/
structure ConvRow where
  session_id : String
  timestamp : Nat
  role : String
  message : String
deriving DecidableEq

/-- Ordering used by `ORDER BY timestamp ASC`. -/
def tsLe (a b : ConvRow) : Prop := a.timestamp ≤ b.timestamp

instance : DecidableRel tsLe := fun a b => Nat.decLe a.timestamp b.timestamp

instance : IsTotal ConvRow tsLe := ⟨fun a b => Nat.le_total a.timestamp b.timestamp⟩

instance : IsTrans ConvRow tsLe := ⟨fun _ _ _ h1 h2 => Nat.le_trans h1 h2⟩

/-- Shallow embedding of `nexy_rep.storage.get_chat_history`: the SELECT
filters on `session_id`, orders by `timestamp` ascending, appends
`LIMIT limit` only when `limit` is truthy (so `None` and `0` both mean no
limit, and a negative LIMIT is no limit in SQLite), and projects each row
to `(timestamp, role, message)`. -/
def get_chat_history (db : List ConvRow) (session_id : String)
    (limit : Option Int) : List (Nat × String × String) :=
  let ordered := List.insertionSort tsLe
    (db.filter fun r => r.session_id == session_id)
  let limited :=
    match limit with
    | none => ordered
    | some n => if n ≠ 0 then (if n < 0 then ordered else ordered.take n.toNat) else ordered
  limited.map fun r => (r.timestamp, r.role, r.message)

/-- Concrete configuration for witnesses: integer threshold so every
comparison reduces in the kernel. -/
def cfgW : Config := ⟨"tmp", "img", "db", 1⟩

/-- Collaborators where everything succeeds and the similarity comes out
strictly below the threshold of `cfgW`. -/
def cOk : Collaborators :=
  { take_screenshot := fun _ => true
    extract_text_from_image := fun _ => some "hi"
    get_embedding := fun _ => some [1]
    compute_similarity := fun _ _ => 0
    store_data_ok := true }

/-- Collaborators whose similarity equals the threshold of `cfgW`
exactly, for the strict-rejection witness. -/
def cEq : Collaborators :=
  { take_screenshot := fun _ => true
    extract_text_from_image := fun _ => some "hi"
    get_embedding := fun _ => some [1]
    compute_similarity := fun _ _ => 1
    store_data_ok := true }

/-- Collaborators where the embedding call raises. -/
def cNoEmb : Collaborators :=
  { take_screenshot := fun _ => true
    extract_text_from_image := fun _ => some "hi"
    get_embedding := fun _ => none
    compute_similarity := fun _ _ => 0
    store_data_ok := true }

/-- Collaborators where the durable insert fails (and is swallowed). -/
def cStoreFail : Collaborators :=
  { take_screenshot := fun _ => true
    extract_text_from_image := fun _ => some "hi"
    get_embedding := fun _ => some [1]
    compute_similarity := fun _ _ => 0
    store_data_ok := false }

/-- Collaborators where OCR raises. -/
def cOcrFail : Collaborators :=
  { take_screenshot := fun _ => true
    extract_text_from_image := fun _ => none
    get_embedding := fun _ => some [1]
    compute_similarity := fun _ _ => 0
    store_data_ok := true }

/-- Collaborators whose OCR output is whitespace only. -/
def cBlank : Collaborators :=
  { take_screenshot := fun _ => true
    extract_text_from_image := fun _ => some "  \n"
    get_embedding := fun _ => some [1]
    compute_similarity := fun _ _ => 0
    store_data_ok := true }


/-- Helper: an extension outside the registry looks up to nothing. -/
theorem lookup_extractors_eq_none (e : String) (h : e ∉ supportedExts) :
    extractors.lookup e = none := by
  simp only [supportedExts, List.mem_cons, List.not_mem_nil, or_false, not_or] at h
  obtain ⟨h1, h2, h3, h4, h5, h6, h7, h8, h9⟩ := h
  simp [extractors, List.lookup, beq_false_of_ne h1, beq_false_of_ne h2,
    beq_false_of_ne h3, beq_false_of_ne h4, beq_false_of_ne h5, beq_false_of_ne h6,
    beq_false_of_ne h7, beq_false_of_ne h8, beq_false_of_ne h9]

/-- Claim C1: for either pipeline entry point, when recognition yields
non-empty text and the durable insert itself succeeds, the capture is
persisted (permanent image path set and a capture-log record appended)
exactly when the persist flag is true and either no last accepted
embedding exists or the similarity the invocation computed is strictly
below the configured threshold; in particular a similarity exactly equal
to the threshold is rejected, because the comparison is strict. -/
theorem acceptance_strict_law (cfg : Config) (c : Collaborators) (last : Option Emb)
    (ts ip : String) (store : Bool) (text : String)
    (hok : c.store_data_ok = true) (hblank : isBlank text = false) :
    (c.take_screenshot (tempPath cfg ts) = true →
      c.extract_text_from_image (tempPath cfg ts) = some text →
      (((capture_and_process_screen cfg c last ts store).1.image_path.isSome = true ∧
          recordAppended (capture_and_process_screen cfg c last ts store).2.2 = true) ↔
        (store = true ∧ (last = none ∨ simOf c last text < cfg.similarity_threshold)))) ∧
    (c.extract_text_from_image ip = some text →
      (((process_image cfg c last ip ts store).1.image_path.isSome = true ∧
          recordAppended (process_image cfg c last ip ts store).2.2 = true) ↔
        (store = true ∧ (last = none ∨ simOf c last text < cfg.similarity_threshold)))) := by
  constructor
  · intro hshot hocr
    by_cases hacc : store = true ∧ (last = none ∨ simOf c last text < cfg.similarity_threshold)
    · simp [capture_and_process_screen, hshot, hocr, hblank, hacc, hok,
        recordAppended, isStoreData]
    · simp [capture_and_process_screen, hshot, hocr, hblank, hacc,
        recordAppended, isStoreData]
  · intro hocr
    by_cases hacc : store = true ∧ (last = none ∨ simOf c last text < cfg.similarity_threshold)
    · simp [process_image, hocr, hblank, hacc, hok, recordAppended, isStoreData]
    · simp [process_image, hocr, hblank, hacc, recordAppended, isStoreData]

/-- Witness for C1 at the boundary case: the similarity collaborator
returns exactly the configured threshold, and the instantiated
acceptance law together with the concrete run shows the capture is
rejected (strict less-than, not less-or-equal). -/
theorem acceptance_strict_law_witness :
    (((capture_and_process_screen cfgW cEq (some [2]) "t" true).1.image_path.isSome = true ∧
        recordAppended (capture_and_process_screen cfgW cEq (some [2]) "t" true).2.2 = true) ↔
      (true = true ∧ ((some [2] : Option Emb) = none ∨
        simOf cEq (some [2]) "hi" < cfgW.similarity_threshold))) ∧
    (capture_and_process_screen cfgW cEq (some [2]) "t" true).1.image_path = none := by
  constructor
  · exact (acceptance_strict_law cfgW cEq (some [2]) "t" "p" true "hi" rfl rfl).1 rfl rfl
  · rfl

/-- Counterexample to claim C2 as stated: when the durable insert raises,
the source logs and swallows the failure (services.py lines 165 to 176)
and still sets `image_path`, so the result carries a permanent image path
although no capture-log record was appended: the biconditional between
`image_path` presence and (file placed and record appended) fails. -/
theorem image_path_iff_record_cex :
    (capture_and_process_screen cfgW cStoreFail none "t" true).1.image_path.isSome = true ∧
    recordAppended (capture_and_process_screen cfgW cStoreFail none "t" true).2.2 = false ∧
    filePlaced (capture_and_process_screen cfgW cStoreFail none "t" true).2.2 = true :=
  ⟨rfl, rfl, rfl⟩

/-- Claim C2 amended: for either pipeline entry point, the result has
`image_path` present exactly when this invocation placed the image in
the permanent location (rename on the capture path, copy on the
existing-image path). The durable append is attempted exactly in that
case, but its failure is swallowed, so the record half of the original
biconditional is not guaranteed. -/
theorem image_path_iff_file_placed (cfg : Config) (c : Collaborators) (last : Option Emb)
    (ts ip : String) (store : Bool) :
    ((capture_and_process_screen cfg c last ts store).1.image_path.isSome =
      filePlaced (capture_and_process_screen cfg c last ts store).2.2) ∧
    ((process_image cfg c last ip ts store).1.image_path.isSome =
      filePlaced (process_image cfg c last ip ts store).2.2) := by
  constructor
  · simp only [capture_and_process_screen]
    split
    · split
      · simp [filePlaced]
      · split
        · simp [filePlaced]
        · split
          · split <;> simp [filePlaced]
          · simp [filePlaced]
    · simp [filePlaced]
  · simp only [process_image]
    split
    · simp [filePlaced]
    · split
      · simp [filePlaced]
      · split
        · split <;> simp [filePlaced]
        · simp [filePlaced]

/-- Claim C3: whenever recognition yields empty or whitespace-only text,
regardless of the persist flag and the threshold, the result has
similarity 0 and `image_path` absent, no durable record is appended, the
pipeline-acquired temporary image is removed before the call returns
(capture path), nothing at all is touched on the existing-image path,
and the last-embedding state is unchanged. -/
theorem empty_text_law (cfg : Config) (c : Collaborators) (last : Option Emb)
    (ts ip : String) (store : Bool) (text : String) (hblank : isBlank text = true) :
    (c.take_screenshot (tempPath cfg ts) = true →
      c.extract_text_from_image (tempPath cfg ts) = some text →
      (capture_and_process_screen cfg c last ts store).1.similarity = 0 ∧
      (capture_and_process_screen cfg c last ts store).1.image_path = none ∧
      recordAppended (capture_and_process_screen cfg c last ts store).2.2 = false ∧
      FsEvent.removeFile (tempPath cfg ts) ∈
        (capture_and_process_screen cfg c last ts store).2.2 ∧
      (capture_and_process_screen cfg c last ts store).2.1 = last) ∧
    (c.extract_text_from_image ip = some text →
      (process_image cfg c last ip ts store).1.similarity = 0 ∧
      (process_image cfg c last ip ts store).1.image_path = none ∧
      (process_image cfg c last ip ts store).2.2 = [] ∧
      (process_image cfg c last ip ts store).2.1 = last) := by
  constructor
  · intro hshot hocr
    simp [capture_and_process_screen, hshot, hocr, hblank, recordAppended, isStoreData]
  · intro hocr
    simp [process_image, hocr, hblank]

/-- Witness for C3: a concrete run whose OCR output is whitespace only,
with the persist flag true and a prior embedding present, still yields
similarity 0, no image path, no record, a deleted temp file, and an
unchanged state. -/
theorem empty_text_law_witness :
    (capture_and_process_screen cfgW cBlank (some [1]) "t" true).1.similarity = 0 ∧
    (capture_and_process_screen cfgW cBlank (some [1]) "t" true).1.image_path = none ∧
    recordAppended (capture_and_process_screen cfgW cBlank (some [1]) "t" true).2.2 = false ∧
    FsEvent.removeFile (tempPath cfgW "t") ∈
      (capture_and_process_screen cfgW cBlank (some [1]) "t" true).2.2 ∧
    (capture_and_process_screen cfgW cBlank (some [1]) "t" true).2.1 = some [1] :=
  (empty_text_law cfgW cBlank (some [1]) "t" "p" true "  \n" rfl).1 rfl rfl

/-- Claim C4: when the screenshot was taken but recognition is
unavailable or raises, `capture_and_process_screen` removes the
pipeline-acquired temporary image before returning (the trace is exactly
the screenshot followed by its removal, so no temp file remains), does
not raise (the embedding is a total function), and returns a result
carrying the error tag and empty text, with the state unchanged. -/
theorem ocr_failure_cleanup (cfg : Config) (c : Collaborators) (last : Option Emb)
    (ts : String) (store : Bool)
    (hshot : c.take_screenshot (tempPath cfg ts) = true)
    (hocr : c.extract_text_from_image (tempPath cfg ts) = none) :
    (capture_and_process_screen cfg c last ts store).1.error = some "ocr_unavailable" ∧
    (capture_and_process_screen cfg c last ts store).1.text = "" ∧
    (capture_and_process_screen cfg c last ts store).1.image_path = none ∧
    (capture_and_process_screen cfg c last ts store).2.2 =
      [FsEvent.takeScreenshot (tempPath cfg ts), FsEvent.removeFile (tempPath cfg ts)] ∧
    (capture_and_process_screen cfg c last ts store).2.1 = last := by
  simp [capture_and_process_screen, hshot, hocr]

/-- Witness for C4 at a concrete recognition failure. -/
theorem ocr_failure_cleanup_witness :
    (capture_and_process_screen cfgW cOcrFail none "t" true).1.error = some "ocr_unavailable" ∧
    (capture_and_process_screen cfgW cOcrFail none "t" true).1.text = "" ∧
    (capture_and_process_screen cfgW cOcrFail none "t" true).1.image_path = none ∧
    (capture_and_process_screen cfgW cOcrFail none "t" true).2.2 =
      [FsEvent.takeScreenshot (tempPath cfgW "t"), FsEvent.removeFile (tempPath cfgW "t")] ∧
    (capture_and_process_screen cfgW cOcrFail none "t" true).2.1 = none :=
  ocr_failure_cleanup cfgW cOcrFail none "t" true rfl rfl

/-- Counterexample to claim C5 as stated: with non-empty text, a prior
last embedding, a positive threshold and the persist flag true, an
embedding failure leaves similarity at 0, which is below the threshold,
so the acceptance branch runs `self._last_embedding = embedding` with
`embedding = None` (services.py lines 151 to 154 and 177): the state is
overwritten with None, not left unchanged as the claim says. -/
theorem embedding_failure_state_cex :
    cNoEmb.get_embedding "hi" = none ∧
    (capture_and_process_screen cfgW cNoEmb (some [1]) "t" true).1.similarity = 0 ∧
    (capture_and_process_screen cfgW cNoEmb (some [1]) "t" true).2.1 = none ∧
    (some [1] : Option Emb) ≠ none :=
  ⟨rfl, rfl, rfl, by simp⟩

/-- Claim C5 amended: with non-empty recognized text and a failing
embedding service, either pipeline entry point does not abort and
proceeds with similarity 0; the last-embedding state is unchanged when
the invocation is rejected, but when it is accepted (persist flag true
and either no prior embedding or threshold above 0) the state is reset
to absent rather than left unchanged. -/
theorem embedding_failure_degrade (cfg : Config) (c : Collaborators) (last : Option Emb)
    (ts ip : String) (store : Bool) (text : String)
    (hblank : isBlank text = false) (hemb : c.get_embedding text = none) :
    (c.take_screenshot (tempPath cfg ts) = true →
      c.extract_text_from_image (tempPath cfg ts) = some text →
      (capture_and_process_screen cfg c last ts store).1.similarity = 0 ∧
      (capture_and_process_screen cfg c last ts store).2.1 =
        (if store = true ∧ (last = none ∨ (0:ℚ) < cfg.similarity_threshold)
          then none else last)) ∧
    (c.extract_text_from_image ip = some text →
      (process_image cfg c last ip ts store).1.similarity = 0 ∧
      (process_image cfg c last ip ts store).2.1 =
        (if store = true ∧ (last = none ∨ (0:ℚ) < cfg.similarity_threshold)
          then none else last)) := by
  have hs : simOf c last text = 0 := by
    simp [simOf, hemb]
  constructor
  · intro hshot hocr
    by_cases hacc : store = true ∧ (last = none ∨ (0:ℚ) < cfg.similarity_threshold)
    · simp [capture_and_process_screen, hshot, hocr, hblank, hs, hacc, hemb]
    · simp [capture_and_process_screen, hshot, hocr, hblank, hs, hacc, hemb]
  · intro hocr
    by_cases hacc : store = true ∧ (last = none ∨ (0:ℚ) < cfg.similarity_threshold)
    · simp [process_image, hocr, hblank, hs, hacc, hemb]
    · simp [process_image, hocr, hblank, hs, hacc, hemb]

/-- Witness for the amended C5 at a concrete embedding failure with a
prior embedding and an accepting run. -/
theorem embedding_failure_degrade_witness :
    (capture_and_process_screen cfgW cNoEmb (some [1]) "t" true).1.similarity = 0 ∧
    (capture_and_process_screen cfgW cNoEmb (some [1]) "t" true).2.1 =
      (if true = true ∧ ((some [1] : Option Emb) = none ∨ (0:ℚ) < cfgW.similarity_threshold)
        then none else some [1]) :=
  (embedding_failure_degrade cfgW cNoEmb (some [1]) "t" "p" true "hi" rfl rfl).1 rfl rfl

/-- Claim C6: `extract_from_file` resolves the extractor by the
lower-cased file extension: every path whose extension lies in the
supported set dispatches to the extractor registered for that extension,
and every other path fails with the error carrying the offending
extension, propagated unchanged with no fallback. -/
theorem extract_from_file_dispatch (oracle : String → String → String) (path : String) :
    (pyLower (splitext_ext path) ∈ supportedExts →
      extract_from_file oracle path =
        Except.ok (oracle ((extractors.lookup (pyLower (splitext_ext path))).getD "") path)) ∧
    (pyLower (splitext_ext path) ∉ supportedExts →
      extract_from_file oracle path =
        Except.error ("Unsupported file type: " ++ pyLower (splitext_ext path))) := by
  constructor
  · intro hmem
    simp only [extract_from_file]
    revert hmem
    generalize pyLower (splitext_ext path) = e
    intro hmem
    fin_cases hmem <;> rfl
  · intro hmem
    simp only [extract_from_file, lookup_extractors_eq_none _ hmem]

/-- Witness for C6 at concrete paths: an upper-cased supported extension
dispatches to the PDF extractor, an unknown extension yields the error
message carrying it. -/
theorem extract_from_file_dispatch_witness :
    extract_from_file (fun cls p => cls ++ ":" ++ p) "docs/a.PDF" =
      Except.ok "PDFExtractor:docs/a.PDF" ∧
    extract_from_file (fun cls p => cls ++ ":" ++ p) "docs/a.exe" =
      Except.error "Unsupported file type: .exe" := by
  constructor
  · exact (extract_from_file_dispatch (fun cls p => cls ++ ":" ++ p) "docs/a.PDF").1
      (by decide)
  · exact (extract_from_file_dispatch (fun cls p => cls ++ ":" ++ p) "docs/a.exe").2
      (by decide)

/-- Claim C7: a rejected invocation with non-empty recognized text
(persist flag false, or a prior embedding exists and the similarity is
not strictly below the threshold) deletes the pipeline-acquired
temporary image (capture path; nothing was acquired on the
existing-image path, whose trace is empty), leaves the last-embedding
state unchanged, and returns with `image_path` absent. -/
theorem rejection_frame (cfg : Config) (c : Collaborators) (last : Option Emb)
    (ts ip : String) (store : Bool) (text : String)
    (hblank : isBlank text = false)
    (hrej : ¬ (store = true ∧ (last = none ∨ simOf c last text < cfg.similarity_threshold))) :
    (c.take_screenshot (tempPath cfg ts) = true →
      c.extract_text_from_image (tempPath cfg ts) = some text →
      (capture_and_process_screen cfg c last ts store).1.image_path = none ∧
      (capture_and_process_screen cfg c last ts store).2.1 = last ∧
      (capture_and_process_screen cfg c last ts store).2.2 =
        [FsEvent.takeScreenshot (tempPath cfg ts), FsEvent.removeFile (tempPath cfg ts)]) ∧
    (c.extract_text_from_image ip = some text →
      (process_image cfg c last ip ts store).1.image_path = none ∧
      (process_image cfg c last ip ts store).2.1 = last ∧
      (process_image cfg c last ip ts store).2.2 = []) := by
  constructor
  · intro hshot hocr
    simp [capture_and_process_screen, hshot, hocr, hblank, hrej]
  · intro hocr
    simp [process_image, hocr, hblank, hrej]

/-- Witness for C7: a concrete run rejected because the persist flag is
false keeps the state, deletes the temp file and sets no image path. -/
theorem rejection_frame_witness :
    (capture_and_process_screen cfgW cOk (some [2]) "t" false).1.image_path = none ∧
    (capture_and_process_screen cfgW cOk (some [2]) "t" false).2.1 = some [2] ∧
    (capture_and_process_screen cfgW cOk (some [2]) "t" false).2.2 =
      [FsEvent.takeScreenshot (tempPath cfgW "t"), FsEvent.removeFile (tempPath cfgW "t")] :=
  (rejection_frame cfgW cOk (some [2]) "t" "p" false "hi" rfl (by simp)).1 rfl rfl

/-- Claim C8: in every invocation of either entry point (accepting ones
included), the side-effect trace never contains a capture-log insert
whose referenced image path was not placed (by the rename on the capture
path or the copy on the existing-image path) strictly earlier in the
trace, so the log never references a file that does not yet exist. -/
theorem file_before_log_order (cfg : Config) (c : Collaborators) (last : Option Emb)
    (ts ip : String) (store : Bool) :
    fileBeforeLog (capture_and_process_screen cfg c last ts store).2.2 = true ∧
    fileBeforeLog (process_image cfg c last ip ts store).2.2 = true := by
  constructor
  · simp only [capture_and_process_screen]
    split
    · split
      · simp [fileBeforeLog, fileBeforeLogAux]
      · split
        · simp [fileBeforeLog, fileBeforeLogAux]
        · split
          · split <;> simp [fileBeforeLog, fileBeforeLogAux, placesFile]
          · simp [fileBeforeLog, fileBeforeLogAux]
    · simp [fileBeforeLog, fileBeforeLogAux]
  · simp only [process_image]
    split
    · simp [fileBeforeLog, fileBeforeLogAux]
    · split
      · simp [fileBeforeLog, fileBeforeLogAux]
      · split
        · split <;> simp [fileBeforeLog, fileBeforeLogAux, placesFile]
        · simp [fileBeforeLog, fileBeforeLogAux]

/-- Claim C9: `get_chat_history` without a limit returns exactly the
turns of the session, ordered by timestamp ascending, and a positive
limit `n` returns the first `n` turns of that ascending order. -/
theorem chat_history_ordered (db : List ConvRow) (sid : String) :
    (get_chat_history db sid none).Perm
      ((db.filter fun r => r.session_id == sid).map fun r =>
        (r.timestamp, r.role, r.message)) ∧
    List.Sorted (fun a b => a.1 ≤ b.1) (get_chat_history db sid none) ∧
    ∀ n : Int, 0 < n →
      get_chat_history db sid (some n) = (get_chat_history db sid none).take n.toNat := by
  refine ⟨?_, ?_, ?_⟩
  · exact (List.perm_insertionSort tsLe _).map _
  · exact List.Pairwise.map _ (fun a b hab => hab)
      (List.sorted_insertionSort tsLe (db.filter fun r => r.session_id == sid))
  · intro n hn
    simp only [get_chat_history]
    rw [if_pos (by omega : n ≠ 0), if_neg (by omega : ¬ n < 0)]
    exact List.map_take ..

/-- Witness for C9: three turns of one session inserted out of order
come back sorted by timestamp, and limit 2 keeps the first two of that
ascending order. -/
theorem chat_history_ordered_witness :
    get_chat_history
        [⟨"s", 3, "user", "c"⟩, ⟨"s", 1, "user", "a"⟩, ⟨"s", 2, "assistant", "b"⟩]
        "s" (some 2) =
      (get_chat_history
        [⟨"s", 3, "user", "c"⟩, ⟨"s", 1, "user", "a"⟩, ⟨"s", 2, "assistant", "b"⟩]
        "s" none).take 2 ∧
    get_chat_history
        [⟨"s", 3, "user", "c"⟩, ⟨"s", 1, "user", "a"⟩, ⟨"s", 2, "assistant", "b"⟩]
        "s" none =
      [(1, "user", "a"), (2, "assistant", "b"), (3, "user", "c")] := by
  constructor
  · exact (chat_history_ordered
      [⟨"s", 3, "user", "c"⟩, ⟨"s", 1, "user", "a"⟩, ⟨"s", 2, "assistant", "b"⟩]
      "s").2.2 2 (by decide)
  · rfl

/-- Claim C10: limit 0 is falsy in the source (`if limit:`), so it
returns all turns of the session, exactly as passing no limit does. -/
theorem chat_history_zero_limit (db : List ConvRow) (sid : String) :
    get_chat_history db sid (some 0) = get_chat_history db sid none := by
  simp [get_chat_history]

end Nexa
